import Mathlib

/-!
Verification of the homework-bot polling script (`homework.py`).

The script polls the Practicum homework API, validates the JSON response,
formats a status message and sends it to a Telegram chat, with a
duplicate-error-suppression policy in the main loop.  We embed the pure
decision logic shallowly: Python values that flow through the validators are
modelled by `PyObj`, raised exceptions by `PyError`, and the external world
(HTTP outcome of `requests.get`, success of each `bot.send_message` call) by
per-cycle oracle inputs.  Python object identity (`is` / `is not`), used by
the loop to compare the caught exception with `last_error`, is modelled by
tagging each caught exception with the index of the cycle that raised it:
every `raise` allocates a fresh object, so two exceptions caught in different
cycles are never the same object.
-/

namespace HomeworkBot

/-- A Python value as seen by the validators: dicts (assoc lists in insertion
order), lists, strings, ints, and `None`. -/
inductive PyObj where
  | dict : List (String × PyObj) → PyObj
  | list : List PyObj → PyObj
  | str : String → PyObj
  | int : Int → PyObj
  | none : PyObj

/-- Python dict lookup (`d.get(key)` / `d[key]`): first binding wins. -/
def lookupDict : List (String × PyObj) → String → Option PyObj
  | [], _ => Option.none
  | (k, v) :: rest, key => if k = key then some v else lookupDict rest key

/-- Python `repr` of a value (used by `str` on containers). -/
def pyRepr : PyObj → String
  | .str s => "'" ++ s ++ "'"
  | .int n => toString n
  | .none => "None"
  | .list xs =>
      "[" ++ String.intercalate ", " (xs.attach.map fun x => pyRepr x.1) ++ "]"
  | .dict es =>
      "\x7b" ++ String.intercalate ", "
        (es.attach.map fun p => "'" ++ p.1.1 ++ "': " ++ pyRepr p.1.2) ++ "\x7d"
decreasing_by
  · have := List.sizeOf_lt_of_mem x.2
    simp only [PyObj.list.sizeOf_spec]
    omega
  · have := List.sizeOf_lt_of_mem p.2
    have h2 : sizeOf p.1.2 < sizeOf p.1 := by
      cases p.1 with
      | mk a b => simp only [Prod.mk.sizeOf_spec]; omega
    simp only [PyObj.dict.sizeOf_spec]
    omega

/-- Python `str` of a value (what an f-string interpolates). -/
def pyStr (o : PyObj) : String :=
  match o with
  | .str s => s
  | other => pyRepr other

/-- `HOMEWORK_VERDICTS` from homework.py, a fixed mapping from status code to
verdict text, in source order. -/
def HOMEWORK_VERDICTS : List (String × String) :=
  [("approved", "Работа проверена: ревьюеру всё понравилось. Ура!"),
   ("reviewing", "Работа взята на проверку ревьюером."),
   ("rejected", "Работа проверена: у ревьюера есть замечания.")]

/-- The exceptions the script can raise, with the payload each carries.
Classes come from homework.py and custom_exceptions.py; `attributeErrorNoGet`
is the `AttributeError` Python raises when `.get` is called on a value that is
not a dict (e.g. `parse_status(None)`). -/
inductive PyError where
  | requestException
  | practikumUnavailable
  | jsonDecodeError
  | typeErrorNotDict (got : PyObj)
  | practikumNoKeys (keys : List String)
  | typeErrorNotList (got : PyObj)
  | attributeErrorNoGet (got : PyObj)
  | keyErrorUnknownStatus (status : Option PyObj)
  | keyErrorNoName (keys : List String)
  | customTelegramError

/-- `check_response` from homework.py: requires a dict with a `homeworks` key
holding a list; returns `None` (modelled `PyObj.none` wrapped as the record
slot being absent via `.ok .none`) for an empty list, else the first element. -/
def check_response (response : PyObj) : Except PyError PyObj :=
  match response with
  | .dict es =>
      match lookupDict es "homeworks" with
      | Option.none => .error (.practikumNoKeys (es.map Prod.fst))
      | some hws =>
          match hws with
          | .list [] => .ok .none
          | .list (first :: _) => .ok first
          | other => .error (.typeErrorNotList other)
  | other => .error (.typeErrorNotDict other)

/-- `parse_status` from homework.py: first checks
`homework.get('status') not in HOMEWORK_VERDICTS.keys()` (raising `KeyError`
on an unknown status), then `'homework_name' not in homework` (raising
`KeyError` on a missing name), then builds the message from the f-string
template.  Calling it on a non-dict (in particular `None`) raises
`AttributeError` at `homework.get`. -/
def parse_status (homework : PyObj) : Except PyError String :=
  match homework with
  | .dict es =>
      match lookupDict es "status" with
      | some (.str s) =>
          match HOMEWORK_VERDICTS.lookup s with
          | some verdict =>
              match lookupDict es "homework_name" with
              | some nameVal =>
                  .ok ("Изменился статус проверки работы \"" ++ pyStr nameVal
                        ++ "\". " ++ verdict)
              | Option.none => .error (.keyErrorNoName (es.map Prod.fst))
          | Option.none => .error (.keyErrorUnknownStatus (some (.str s)))
      | other => .error (.keyErrorUnknownStatus other)
  | other => .error (.attributeErrorNoGet other)

/-- Whether an error belongs to the spec's `SchemaViolation` group: the three
shape checks of `check_response`. -/
def isSchemaViolation : PyError → Bool
  | .typeErrorNotDict _ => true
  | .practikumNoKeys _ => true
  | .typeErrorNotList _ => true
  | _ => false

/-- `homework.get('status') not in HOMEWORK_VERDICTS.keys()`, negated: the
fetched status value is a string that is one of the verdict keys. -/
def statusIsVerdict (v : Option PyObj) : Bool :=
  match v with
  | some (.str s) => (HOMEWORK_VERDICTS.lookup s).isSome
  | _ => false

/-! ### The poll loop (`main`) -/

/-- Outcome of one `requests.get` call, as an oracle: either a transport-level
failure, or an HTTP status code with an optional decoded JSON body
(`Option.none` body = the body was not valid JSON). -/
inductive HttpOutcome where
  | transportError
  | response (code : Nat) (body : Option PyObj)

/-- `get_api_answer` from homework.py: transport failure is re-raised as the
custom `RequestException`; a non-200 status raises `PractikumException`
(`PractikumException` is a plain `Exception`, so the surrounding
`except requests.exceptions.RequestException` does not catch it); a JSON
decode failure on a 200 response escapes the outer `except` the same way. -/
def get_api_answer (o : HttpOutcome) : Except PyError PyObj :=
  match o with
  | .transportError => .error .requestException
  | .response code body =>
      if code = 200 then
        match body with
        | some v => .ok v
        | Option.none => .error .jsonDecodeError
      else .error .practikumUnavailable

/-- An outbound Telegram send attempt observed during a cycle.  A status send
carries the exact message text; a failure notice carries the caught error (the
Python text is `Сбой в работе программы:` followed by `str(error)`).  `ok`
records whether the underlying delivery succeeded. -/
inductive Event where
  | sendStatus (text : String) (ok : Bool)
  | sendError (content : PyError) (ok : Bool)

/-- `send_message` from homework.py, with delivery success as an oracle: on an
underlying Telegram failure it logs and raises `CustomTelegramError`. -/
def send_message (deliveryOk : Bool) : Option PyError :=
  if deliveryOk then Option.none else some PyError.customTelegramError

/-- The loop's mutable state: `timestamp` (a Python value: an int initially,
later whatever `practicum_resp.get('current_date')` returned, possibly `None`)
and `last_error` (the identity tag and content of the last notified error). -/
structure LoopState where
  timestamp : PyObj
  lastError : Option (Nat × PyError)

/-- Oracle inputs for a single cycle: the HTTP outcome, and whether each of
the (at most two) send attempts would be delivered. -/
structure CycleInput where
  http : HttpOutcome
  sendStatusOk : Bool
  sendErrorOk : Bool

/-- Result of a cycle: either the loop continues with a new state, or an
uncaught exception escaped `main` (the process dies). -/
inductive CycleOutcome where
  | next (s : LoopState)
  | crash (e : PyError)

/-- The `try` block of a cycle (lines 161–165): validate, format, and send the
status message; returns the send events performed and the exception reaching
the `except` handler, if any.  `if msg:` is Python truthiness on a string. -/
def tryBody (resp : PyObj) (sendStatusOk : Bool) :
    List Event × Option PyError :=
  match check_response resp with
  | .error e => ([], some e)
  | .ok hw =>
      match parse_status hw with
      | .error e => ([], some e)
      | .ok msg =>
          if msg = "" then ([], Option.none)
          else
            match send_message sendStatusOk with
            | Option.none => ([.sendStatus msg true], Option.none)
            | some e => ([.sendStatus msg false], some e)

/-- The `finally` clause's assignment
`timestamp = practicum_resp.get('current_date')`: returns the new timestamp,
or the `AttributeError` raised when the response is not a dict. -/
def finallyTimestamp (resp : PyObj) : Except PyError PyObj :=
  match resp with
  | .dict es => .ok ((lookupDict es "current_date").getD .none)
  | other => .error (.attributeErrorNoGet other)

/-- `error is last_error`: object identity.  A freshly raised exception is
identical to the stored one only if both tags coincide; `x is None` is false
for an exception object. -/
def isSameObject (lastError : Option (Nat × PyError)) (newId : Nat) : Bool :=
  match lastError with
  | Option.none => false
  | some (oldId, _) => oldId = newId

/-- One iteration of the `while True:` loop in `main` (lines 159–176).
`get_api_answer` is called OUTSIDE the `try`, so its exceptions escape the
loop at once.  The `except` handler notifies unless `error is last_error`;
a failure of that notification raises out of the handler (the `finally` still
runs, then the exception escapes).  The `finally` always reassigns
`timestamp` from the response. -/
def runCycle (cycleId : Nat) (st : LoopState) (inp : CycleInput) :
    CycleOutcome × List Event :=
  match get_api_answer inp.http with
  | .error e => (.crash e, [])
  | .ok resp =>
      match tryBody resp inp.sendStatusOk with
      | (evs, Option.none) =>
          match finallyTimestamp resp with
          | .ok t => (.next ⟨t, st.lastError⟩, evs)
          | .error e2 => (.crash e2, evs)
      | (evs, some e) =>
          if isSameObject st.lastError cycleId then
            match finallyTimestamp resp with
            | .ok t => (.next ⟨t, st.lastError⟩, evs)
            | .error e2 => (.crash e2, evs)
          else
            match send_message inp.sendErrorOk with
            | Option.none =>
                match finallyTimestamp resp with
                | .ok t =>
                    (.next ⟨t, some (cycleId, e)⟩,
                     evs ++ [.sendError e true])
                | .error e2 => (.crash e2, evs ++ [.sendError e true])
            | some raised =>
                match finallyTimestamp resp with
                | .ok _ => (.crash raised, evs ++ [.sendError e false])
                | .error e2 => (.crash e2, evs ++ [.sendError e false])

/-- Run the loop over a finite prefix of cycles, numbering cycles from `k` so
that exception objects caught in different cycles carry distinct identity
tags.  Returns all events and the escaping exception, if one occurred. -/
def runLoop : Nat → LoopState → List CycleInput → List Event × Option PyError
  | _, _, [] => ([], Option.none)
  | k, st, inp :: rest =>
      match runCycle k st inp with
      | (.crash e, evs) => (evs, some e)
      | (.next st', evs) =>
          let tail := runLoop (k + 1) st' rest
          (evs ++ tail.1, tail.2)

/-! ### Startup (`check_tokens` and the head of `main`) -/

/-- The three environment values the script requires. -/
structure Config where
  practicumToken : Option String
  telegramToken : Option String
  telegramChatId : Option String

/-- Python truthiness of an optional string: `None` and `''` are falsy. -/
def truthy : Option String → Bool
  | Option.none => false
  | some s => !(s == "")

/-- `check_tokens` from homework.py: iterates the token dict in insertion
order, logs a critical message naming the first falsy token and returns
`False`; returns `True` when all are truthy.  The second component is the
token name in the critical log line, if any. -/
def check_tokens (c : Config) : Bool × Option String :=
  if truthy c.practicumToken = false then (false, some "PRACTICUM_TOKEN")
  else if truthy c.telegramToken = false then (false, some "TELEGRAM_TOKEN")
  else if truthy c.telegramChatId = false then (false, some "TELEGRAM_CHAT_ID")
  else (true, Option.none)

/-- `main`: if `check_tokens()` fails, exit with `os.EX_DATAERR` (65) before
the bot is constructed and before any cycle runs; otherwise run the loop from
the wall-clock timestamp `t0`.  An exception escaping the loop terminates the
interpreter with exit status 1.  Result: the exit code (`Option.none` while
still looping) and every outbound send event. -/
def mainRun (c : Config) (t0 : Int) (inputs : List CycleInput) :
    Option Nat × List Event :=
  match check_tokens c with
  | (false, _) => (some 65, [])
  | (true, _) =>
      let r := runLoop 0 ⟨.int t0, Option.none⟩ inputs
      match r.2 with
      | some _ => (some 1, r.1)
      | Option.none => (Option.none, r.1)

/-- Number of failure-notice send attempts in a trace. -/
def countErrorSends (evs : List Event) : Nat :=
  (evs.filter fun e =>
    match e with
    | .sendError _ _ => true
    | _ => false).length

/-! ### Shared lemmas -/

/-- `parse_status` on a dict whose `status` value is not a verdict key raises
`KeyError` with the unknown-status payload, whatever the rest of the record
holds (in particular whether or not `homework_name` is present). -/
theorem parse_status_unknown_of_not_verdict (es : List (String × PyObj))
    (h : statusIsVerdict (lookupDict es "status") = false) :
    parse_status (PyObj.dict es) =
      Except.error (.keyErrorUnknownStatus (lookupDict es "status")) := by
  cases hs : lookupDict es "status" with
  | none => simp [parse_status, hs]
  | some v =>
      cases v with
      | str s =>
          cases hv : HOMEWORK_VERDICTS.lookup s with
          | none => simp [parse_status, hs, hv]
          | some w =>
              rw [hs] at h
              simp [statusIsVerdict, hv] at h
      | dict es2 => simp [parse_status, hs]
      | list xs => simp [parse_status, hs]
      | int n => simp [parse_status, hs]
      | none => simp [parse_status, hs]

/-! ### Claims -/

/-- C1: the claim says every error of the request, validation, formatting and
delivery layers is caught inside the poll loop.  In the code,
`get_api_answer(timestamp)` is called before the `try:` block, so any
exception it raises (here: a transport-level `RequestException`) escapes the
loop at once, with no notification, and the process dies with exit status 1. -/
theorem c1_api_error_escapes_loop :
    (∀ (k : Nat) (st : LoopState) (sOk eOk : Bool),
        runCycle k st ⟨HttpOutcome.transportError, sOk, eOk⟩ =
          (CycleOutcome.crash PyError.requestException, []))
    ∧ mainRun ⟨some "a", some "b", some "c"⟩ 1700000000
        [⟨HttpOutcome.transportError, true, true⟩] = (some 1, []) :=
  ⟨fun _ _ _ _ => rfl, rfl⟩

/-- C2: the claim says an empty `homeworks` list produces no outbound
notification.  `check_response` does return the absence value, but `main`
then calls `parse_status(None)`, which raises `AttributeError`; the handler
treats it as a fresh error and sends a failure notice, so the empty-list
cycle does take the error-notification path. -/
theorem c2_empty_list_takes_error_path :
    check_response (PyObj.dict [("homeworks", PyObj.list []),
        ("current_date", PyObj.int 1700000100)]) = Except.ok PyObj.none
    ∧ runCycle 0 ⟨PyObj.int 1700000000, Option.none⟩
        ⟨HttpOutcome.response 200 (some (PyObj.dict
          [("homeworks", PyObj.list []),
           ("current_date", PyObj.int 1700000100)])), true, true⟩
      = (CycleOutcome.next ⟨PyObj.int 1700000100,
           some (0, PyError.attributeErrorNoGet PyObj.none)⟩,
         [Event.sendError (PyError.attributeErrorNoGet PyObj.none) true]) :=
  ⟨rfl, rfl⟩

/-- A cycle input whose response dict has a non-list `homeworks` value: every
such cycle raises `TypeError` with the same content. -/
def sameErrorInput : CycleInput :=
  ⟨HttpOutcome.response 200 (some (PyObj.dict
      [("homeworks", PyObj.str "oops"), ("current_date", PyObj.int 5)])),
   true, true⟩

/-- C3: the claim says two consecutive cycles raising equal errors produce
exactly one notification.  The code compares `error is not last_error`
(object identity); the exception object of each cycle is freshly raised, so
two cycles with identical error kind and content both notify: the trace
holds two failure notices with the very same content. -/
theorem c3_equal_errors_notify_twice :
    (runLoop 0 ⟨PyObj.int 0, Option.none⟩ [sameErrorInput, sameErrorInput]).1 =
      [Event.sendError (PyError.typeErrorNotList (PyObj.str "oops")) true,
       Event.sendError (PyError.typeErrorNotList (PyObj.str "oops")) true]
    ∧ countErrorSends
        (runLoop 0 ⟨PyObj.int 0, Option.none⟩
          [sameErrorInput, sameErrorInput]).1 = 2 :=
  ⟨rfl, rfl⟩

/-- The end-to-end scenario response of the spec: one approved homework named
proj1, `current_date` 1700000100. -/
def scenarioResponse : PyObj :=
  PyObj.dict
    [("homeworks", PyObj.list
        [PyObj.dict [("status", PyObj.str "approved"),
                     ("homework_name", PyObj.str "proj1")]]),
     ("current_date", PyObj.int 1700000100)]

/-- C4 counterexample: the cycle does send exactly one message, but its text
is the code's Russian template, not the English `Changed status of review
for ...` text the claim states. -/
theorem c4_message_text_counterexample :
    (runCycle 0 ⟨PyObj.int 1700000000, Option.none⟩
        ⟨HttpOutcome.response 200 (some scenarioResponse), true, true⟩).2 =
      [Event.sendStatus "Изменился статус проверки работы \"proj1\". Работа проверена: ревьюеру всё понравилось. Ура!" true]
    ∧ ("Изменился статус проверки работы \"proj1\". Работа проверена: ревьюеру всё понравилось. Ура!" : String) ≠
      "Changed status of review for \"proj1\". Работа проверена: ревьюеру всё понравилось. Ура!" :=
  ⟨rfl, by decide⟩

/-- C4 amended: on the scenario response with cursor 1700000000, the loop
sends exactly one outbound message, whose text is the code's template
`Изменился статус проверки работы "proj1". Работа проверена: ревьюеру всё
понравилось. Ура!`, and the cursor afterwards equals 1700000100. -/
theorem c4_end_to_end_scenario :
    runCycle 0 ⟨PyObj.int 1700000000, Option.none⟩
      ⟨HttpOutcome.response 200 (some scenarioResponse), true, true⟩ =
      (CycleOutcome.next ⟨PyObj.int 1700000100, Option.none⟩,
       [Event.sendStatus "Изменился статус проверки работы \"proj1\". Работа проверена: ревьюеру всё понравилось. Ура!" true]) :=
  rfl

/-- C5: `check_response` returns exactly the first element of a non-empty
`homeworks` list, and raises a schema-violation error when the response is
not a dict, lacks the `homeworks` key, or holds a non-list there. -/
theorem c5_check_response_spec :
    (∀ (es : List (String × PyObj)) (first : PyObj) (rest : List PyObj),
        lookupDict es "homeworks" = some (PyObj.list (first :: rest)) →
        check_response (PyObj.dict es) = Except.ok first)
    ∧ (∀ r : PyObj, (∀ es, r ≠ PyObj.dict es) →
        ∃ e, check_response r = Except.error e ∧ isSchemaViolation e = true)
    ∧ (∀ es : List (String × PyObj), lookupDict es "homeworks" = Option.none →
        ∃ e, check_response (PyObj.dict es) = Except.error e ∧
          isSchemaViolation e = true)
    ∧ (∀ (es : List (String × PyObj)) (v : PyObj),
        lookupDict es "homeworks" = some v →
        (∀ items, v ≠ PyObj.list items) →
        ∃ e, check_response (PyObj.dict es) = Except.error e ∧
          isSchemaViolation e = true) := by
  refine ⟨?_, ?_, ?_, ?_⟩
  · intro es first rest h
    simp [check_response, h]
  · intro r hr
    cases r with
    | dict es => exact absurd rfl (hr es)
    | list xs => exact ⟨PyError.typeErrorNotDict (PyObj.list xs), rfl, rfl⟩
    | str s => exact ⟨PyError.typeErrorNotDict (PyObj.str s), rfl, rfl⟩
    | int n => exact ⟨PyError.typeErrorNotDict (PyObj.int n), rfl, rfl⟩
    | none => exact ⟨PyError.typeErrorNotDict PyObj.none, rfl, rfl⟩
  · intro es h
    exact ⟨PyError.practikumNoKeys (es.map Prod.fst),
      by simp [check_response, h], rfl⟩
  · intro es v h hv
    cases v with
    | list items => exact absurd rfl (hv items)
    | dict es2 => exact ⟨PyError.typeErrorNotList (PyObj.dict es2),
        by simp [check_response, h], rfl⟩
    | str s => exact ⟨PyError.typeErrorNotList (PyObj.str s),
        by simp [check_response, h], rfl⟩
    | int n => exact ⟨PyError.typeErrorNotList (PyObj.int n),
        by simp [check_response, h], rfl⟩
    | none => exact ⟨PyError.typeErrorNotList PyObj.none,
        by simp [check_response, h], rfl⟩

/-- C5 witness: a two-element list yields its first element; a plain string
response yields a schema violation. -/
theorem c5_check_response_spec_witness :
    check_response (PyObj.dict
        [("homeworks", PyObj.list [PyObj.int 7, PyObj.int 8])]) =
      Except.ok (PyObj.int 7)
    ∧ ∃ e, check_response (PyObj.str "x") = Except.error e ∧
        isSchemaViolation e = true :=
  ⟨c5_check_response_spec.1 _ (PyObj.int 7) [PyObj.int 8] rfl,
   c5_check_response_spec.2.1 (PyObj.str "x")
     (fun _ h => PyObj.noConfusion h)⟩

/-- C6: on a record whose `status` is a verdict key and that has a
`homework_name` string, `parse_status` succeeds with a message containing
both the name and the exact mapped verdict text; on any record whose status
is outside the verdict set it raises the unknown-status `KeyError`. -/
theorem c6_parse_status_spec :
    (∀ (es : List (String × PyObj)) (s verdict nm : String),
        lookupDict es "status" = some (PyObj.str s) →
        HOMEWORK_VERDICTS.lookup s = some verdict →
        lookupDict es "homework_name" = some (PyObj.str nm) →
        ∃ out, parse_status (PyObj.dict es) = Except.ok out ∧
          (∃ a b, out = a ++ nm ++ b) ∧ (∃ a b, out = a ++ verdict ++ b))
    ∧ (∀ es : List (String × PyObj),
        statusIsVerdict (lookupDict es "status") = false →
        parse_status (PyObj.dict es) =
          Except.error (.keyErrorUnknownStatus (lookupDict es "status"))) := by
  constructor
  · intro es s verdict nm hs hv hn
    refine ⟨"Изменился статус проверки работы \"" ++ nm ++ "\". " ++ verdict,
      by simp [parse_status, hs, hv, hn, pyStr], ?_, ?_⟩
    · exact ⟨"Изменился статус проверки работы \"", "\". " ++ verdict,
        String.append_assoc _ _ _⟩
    · exact ⟨"Изменился статус проверки работы \"" ++ nm ++ "\". ", "",
        by rw [String.append_empty]⟩
  · exact parse_status_unknown_of_not_verdict

/-- C6 witness: an approved record named proj1 yields a message containing
the name and the verdict; a record with status abc fails with the
unknown-status error. -/
theorem c6_parse_status_spec_witness :
    (∃ out, parse_status (PyObj.dict
        [("status", PyObj.str "approved"),
         ("homework_name", PyObj.str "proj1")]) = Except.ok out ∧
      (∃ a b, out = a ++ "proj1" ++ b) ∧
      (∃ a b, out = a ++ "Работа проверена: ревьюеру всё понравилось. Ура!" ++ b))
    ∧ parse_status (PyObj.dict [("status", PyObj.str "abc")]) =
        Except.error (.keyErrorUnknownStatus (some (PyObj.str "abc"))) :=
  ⟨c6_parse_status_spec.1 _ "approved" _ "proj1" rfl rfl rfl,
   c6_parse_status_spec.2 [("status", PyObj.str "abc")] rfl⟩

/-- The critical log line of `check_tokens` names a key whose configured
value is falsy. -/
def missingNamed (c : Config) (key : String) : Prop :=
  (key = "PRACTICUM_TOKEN" ∧ truthy c.practicumToken = false)
  ∨ (key = "TELEGRAM_TOKEN" ∧ truthy c.telegramToken = false)
  ∨ (key = "TELEGRAM_CHAT_ID" ∧ truthy c.telegramChatId = false)

/-- C7: if any of the three required configuration values is absent (or
empty), the process performs no network or notification call, exits with the
non-zero code 65 (`os.EX_DATAERR`), and the critical log names a missing
key. -/
theorem c7_startup_gating (c : Config) (t0 : Int) (inputs : List CycleInput)
    (h : truthy c.practicumToken = false ∨ truthy c.telegramToken = false ∨
         truthy c.telegramChatId = false) :
    mainRun c t0 inputs = (some 65, []) ∧ (65 : Nat) ≠ 0 ∧
      ∃ key, (check_tokens c).2 = some key ∧ missingNamed c key := by
  cases hp : truthy c.practicumToken with
  | false =>
      exact ⟨by simp [mainRun, check_tokens, hp], by decide,
        "PRACTICUM_TOKEN", by simp [check_tokens, hp], Or.inl ⟨rfl, hp⟩⟩
  | true =>
      cases ht : truthy c.telegramToken with
      | false =>
          exact ⟨by simp [mainRun, check_tokens, hp, ht], by decide,
            "TELEGRAM_TOKEN", by simp [check_tokens, hp, ht],
            Or.inr (Or.inl ⟨rfl, ht⟩)⟩
      | true =>
          cases hc : truthy c.telegramChatId with
          | false =>
              exact ⟨by simp [mainRun, check_tokens, hp, ht, hc], by decide,
                "TELEGRAM_CHAT_ID", by simp [check_tokens, hp, ht, hc],
                Or.inr (Or.inr ⟨rfl, hc⟩)⟩
          | true => rcases h with h | h | h <;> simp_all

/-- C7 witness: with `PRACTICUM_TOKEN` unset the run exits 65 with an empty
event trace, naming the missing key. -/
theorem c7_startup_gating_witness :
    mainRun ⟨Option.none, some "t", some "c"⟩ 0 [] = (some 65, []) ∧
      (65 : Nat) ≠ 0 ∧
      ∃ key, (check_tokens ⟨Option.none, some "t", some "c"⟩).2 = some key ∧
        missingNamed ⟨Option.none, some "t", some "c"⟩ key :=
  c7_startup_gating ⟨Option.none, some "t", some "c"⟩ 0 [] (Or.inl rfl)

/-- C8: the claim says a delivery failure is caught, triggers no further
notification attempt, and never escapes the loop.  In the code, a failed
status send raises `CustomTelegramError`, the handler then attempts a second
send (the failure notice), and when that send also fails the exception
escapes the `except` block and crashes the loop. -/
theorem c8_delivery_failure_escalates :
    runCycle 0 ⟨PyObj.int 0, Option.none⟩
      ⟨HttpOutcome.response 200 (some (PyObj.dict
        [("homeworks", PyObj.list
            [PyObj.dict [("status", PyObj.str "approved"),
                         ("homework_name", PyObj.str "hw")]]),
         ("current_date", PyObj.int 10)])), false, false⟩
    = (CycleOutcome.crash PyError.customTelegramError,
       [Event.sendStatus "Изменился статус проверки работы \"hw\". Работа проверена: ревьюеру всё понравилось. Ура!" false,
        Event.sendError PyError.customTelegramError false]) :=
  rfl

/-- C9 counterexample: a completed cycle whose response reports
`current_date` 5 moves the cursor from 1700000000 down to 5 — the cursor can
decrease. -/
theorem c9_cursor_decrease_counterexample :
    (runCycle 0 ⟨PyObj.int 1700000000, Option.none⟩
      ⟨HttpOutcome.response 200 (some (PyObj.dict
        [("homeworks", PyObj.list
            [PyObj.dict [("status", PyObj.str "approved"),
                         ("homework_name", PyObj.str "p")]]),
         ("current_date", PyObj.int 5)])), true, true⟩).1
    = CycleOutcome.next ⟨PyObj.int 5, Option.none⟩ ∧ (5 : Int) < 1700000000 :=
  ⟨rfl, by decide⟩

/-- C9 amended: after every poll cycle whose fetch succeeded and that ends
without an escaping exception, the cursor equals the response's
`current_date` value (`None` when the key is absent) — with no monotonicity
guarantee. -/
theorem c9_cursor_follows_current_date (k : Nat) (st : LoopState)
    (inp : CycleInput) (es : List (String × PyObj)) (st' : LoopState)
    (evs : List Event)
    (hresp : get_api_answer inp.http = Except.ok (PyObj.dict es))
    (hnext : runCycle k st inp = (CycleOutcome.next st', evs)) :
    st'.timestamp = (lookupDict es "current_date").getD PyObj.none := by
  unfold runCycle at hnext
  rw [hresp] at hnext
  simp only [finallyTimestamp] at hnext
  split at hnext
  · rw [Prod.mk.injEq] at hnext
    cases hnext.1
    rfl
  · split at hnext
    · rw [Prod.mk.injEq] at hnext
      cases hnext.1
      rfl
    · split at hnext
      · rw [Prod.mk.injEq] at hnext
        cases hnext.1
        rfl
      · exact absurd (congrArg Prod.fst hnext) (by simp)

/-- C9 amended, witness: the counterexample cycle itself lands on the
reported `current_date` 5. -/
theorem c9_cursor_follows_current_date_witness :
    (⟨PyObj.int 5, Option.none⟩ : LoopState).timestamp =
      (lookupDict
        [("homeworks", PyObj.list
            [PyObj.dict [("status", PyObj.str "approved"),
                         ("homework_name", PyObj.str "p")]]),
         ("current_date", PyObj.int 5)] "current_date").getD PyObj.none :=
  c9_cursor_follows_current_date 0 ⟨PyObj.int 1700000000, Option.none⟩
    ⟨HttpOutcome.response 200 (some (PyObj.dict
        [("homeworks", PyObj.list
            [PyObj.dict [("status", PyObj.str "approved"),
                         ("homework_name", PyObj.str "p")]]),
         ("current_date", PyObj.int 5)])), true, true⟩
    _ ⟨PyObj.int 5, Option.none⟩
    [Event.sendStatus "Изменился статус проверки работы \"p\". Работа проверена: ревьюеру всё понравилось. Ура!" true]
    rfl rfl

/-- C10: `parse_status` checks the status before the name: an out-of-set
status yields the unknown-status error even when `homework_name` is also
absent, and the missing-name error can only arise when the status is a
verdict key. -/
theorem c10_status_checked_before_name :
    (∀ es : List (String × PyObj),
        statusIsVerdict (lookupDict es "status") = false →
        parse_status (PyObj.dict es) =
          Except.error (.keyErrorUnknownStatus (lookupDict es "status")))
    ∧ (∀ (es : List (String × PyObj)) (keys : List String),
        parse_status (PyObj.dict es) =
          Except.error (.keyErrorNoName keys) →
        statusIsVerdict (lookupDict es "status") = true) := by
  constructor
  · exact parse_status_unknown_of_not_verdict
  · intro es keys h
    cases hs : lookupDict es "status" with
    | none => simp [parse_status, hs] at h
    | some v =>
        cases v with
        | str s =>
            cases hv : HOMEWORK_VERDICTS.lookup s with
            | none => simp [parse_status, hs, hv] at h
            | some w => simp [statusIsVerdict, hs, hv]
        | dict es2 => simp [parse_status, hs] at h
        | list xs => simp [parse_status, hs] at h
        | int n => simp [parse_status, hs] at h
        | none => simp [parse_status, hs] at h

/-- C10 witness: a record with unknown status and no name still gets the
unknown-status error; a record with a valid status and no name gets the
missing-name error only because its status is a verdict key. -/
theorem c10_status_checked_before_name_witness :
    parse_status (PyObj.dict [("status", PyObj.str "weird")]) =
      Except.error (.keyErrorUnknownStatus (some (PyObj.str "weird")))
    ∧ statusIsVerdict
        (lookupDict [("status", PyObj.str "approved")] "status") = true :=
  ⟨c10_status_checked_before_name.1 [("status", PyObj.str "weird")] rfl,
   c10_status_checked_before_name.2 [("status", PyObj.str "approved")]
     ["status"] rfl⟩

end HomeworkBot
